import Mathlib

/-!
# Verification of netchange (src/netchange.py)

A shallow embedding of the logic of `netchange.py`, a connectivity-monitoring
daemon, together with theorems settling the specification's claims about it.

External effects (the `ping` subprocess, `nmcli`/`netsh` invocations, HTTP
calls to the Telegram API, wall-clock reads) are modelled as oracle
parameters; everything else is translated directly from the source.
-/

namespace Netchange

/-! ## Configuration constants (src/netchange.py lines 21-36) -/

def PRIMARY_WIFI : String := "PRIMARY_WIFI_NAME"

def SECONDARY_WIFI : String := "SECONDARY_WIFI_NAME"

def FALLBACK_WIFI : String := "FALLBACK_WIFI_NAME"

def PING_INTERVAL : Int := 300

def RETRY_PRIMARY_INTERVAL : Int := 3600 * 3

def TOTAL_PING : Int := 20

def MAX_FAILED_PINGS : Int := 10

/-! ## Connectivity prober (src/netchange.py lines 267-311)

`check_internet_connection(total_pings=TOTAL_PING, max_failed_pings=MAX_FAILED_PINGS)`
clamps its arguments, then issues single-ping subprocess calls in a loop;
each non-zero exit or exception counts as one failure, and after every ping it
returns `False` as soon as `failed_pings >= max_failed_pings`.  The outcome of
the `i`-th ping is the oracle `ping i`; besides the boolean verdict we record
how many pings were issued (the number of subprocess invocations). -/

structure ProbeResult where
  verdict : Bool
  probesIssued : Nat
  deriving DecidableEq

/-- The `for i in range(total_pings)` loop of `check_internet_connection`
(lines 281-305): `remaining` pings are left, `i` pings were already issued,
`failed` of them failed.  Each iteration issues one ping and then tests
`failed_pings >= max_failed_pings`. -/
def pingLoop (ping : Nat → Bool) (maxFailed : Nat) : Nat → Nat → Nat → ProbeResult
  | 0, i, _ => ⟨true, i⟩
  | r + 1, i, failed =>
    let failed' := if ping i = true then failed else failed + 1
    if maxFailed ≤ failed' then ⟨false, i + 1⟩
    else pingLoop ping maxFailed r (i + 1) failed'

/-- `check_internet_connection` (lines 267-311): the safety-guard clamps of
lines 270-277 followed by the ping loop. -/
def check_internet_connection (ping : Nat → Bool) (total_pings max_failed_pings : Int) :
    ProbeResult :=
  let tp := if total_pings < 1 then (1 : Int) else total_pings
  let mf0 := if max_failed_pings < 0 then (0 : Int) else max_failed_pings
  let mf := if mf0 > tp then tp else mf0
  pingLoop ping mf.toNat tp.toNat 0 0

/-- Number of failed pings among the first `k` probes of the oracle. -/
def failCount (ping : Nat → Bool) : Nat → Nat
  | 0 => 0
  | k + 1 => failCount ping k + (if ping k = true then 0 else 1)

lemma failCount_le_succ (ping : Nat → Bool) (k : Nat) :
    failCount ping k ≤ failCount ping (k + 1) := by
  simp only [failCount]
  split <;> omega

lemma failCount_mono (ping : Nat → Bool) {a b : Nat} (h : a ≤ b) :
    failCount ping a ≤ failCount ping b := by
  induction h with
  | refl => exact Nat.le_refl _
  | step _ ih => exact Nat.le_trans ih (failCount_le_succ ping _)

lemma failCount_succ (ping : Nat → Bool) (k : Nat) :
    failCount ping (k + 1) = failCount ping k + (if ping k = true then 0 else 1) := rfl

lemma failCount_eq_zero (ping : Nat → Bool) (T : Nat) (h : ∀ i, i < T → ping i = true) :
    failCount ping T = 0 := by
  induction T with
  | zero => rfl
  | succ k ih =>
    rw [failCount_succ, ih fun i hi => h i (Nat.lt_succ_of_lt hi), h k (Nat.lt_succ_self k)]
    rfl

/-- Main invariant of the ping loop, for a positive threshold `M`: calling it
with `failed = failCount ping i < M` yields a result whose probe count and
verdict are characterised by `failCount`. -/
lemma pingLoop_spec (ping : Nat → Bool) (M : Nat) :
    ∀ (r i : Nat), failCount ping i < M →
      (pingLoop ping M r i (failCount ping i)).probesIssued ≤ i + r ∧
      ((pingLoop ping M r i (failCount ping i)).verdict = false →
        failCount ping (pingLoop ping M r i (failCount ping i)).probesIssued = M ∧
        ∀ k, k < (pingLoop ping M r i (failCount ping i)).probesIssued →
          failCount ping k < M) ∧
      ((pingLoop ping M r i (failCount ping i)).verdict = true ↔
        failCount ping (i + r) < M) ∧
      ((pingLoop ping M r i (failCount ping i)).verdict = true →
        (pingLoop ping M r i (failCount ping i)).probesIssued = i + r) := by
  intro r
  induction r with
  | zero =>
    intro i hf
    refine ⟨Nat.le_refl _, ?_, ?_, ?_⟩
    · intro h; simp [pingLoop] at h
    · simpa [pingLoop] using hf
    · intro _; rfl
  | succ r ih =>
    intro i hf
    have hstep : (if ping i = true then failCount ping i else failCount ping i + 1) =
        failCount ping (i + 1) := by
      rw [failCount_succ]; split <;> simp_all
    by_cases hM : M ≤ failCount ping (i + 1)
    · have hrun : pingLoop ping M (r + 1) i (failCount ping i) = ⟨false, i + 1⟩ := by
        simp only [pingLoop, hstep]
        rw [if_pos hM]
      have hMeq : failCount ping (i + 1) = M := by
        have h1 : failCount ping (i + 1) ≤ failCount ping i + 1 := by
          rw [failCount_succ]; split <;> omega
        omega
      refine ⟨?_, ?_, ?_, ?_⟩
      · rw [hrun]; show i + 1 ≤ i + (r + 1); omega
      · intro _
        rw [hrun]
        refine ⟨hMeq, ?_⟩
        intro k hk
        have hk' : k < i + 1 := hk
        have : k ≤ i := by omega
        exact Nat.lt_of_le_of_lt (failCount_mono ping this) hf
      · rw [hrun]
        simp only [false_iff, not_lt]
        have : failCount ping (i + 1) ≤ failCount ping (i + (r + 1)) :=
          failCount_mono ping (by omega)
        constructor
        · intro h; cases h
        · intro h; omega
      · intro h; rw [hrun] at h; cases h
    · push_neg at hM
      have hrun : pingLoop ping M (r + 1) i (failCount ping i) =
          pingLoop ping M r (i + 1) (failCount ping (i + 1)) := by
        simp only [pingLoop, hstep]
        rw [if_neg (by omega)]
      obtain ⟨h1, h2, h3, h4⟩ := ih (i + 1) hM
      have harith : i + 1 + r = i + (r + 1) := by omega
      refine ⟨?_, ?_, ?_, ?_⟩
      · rw [hrun]; omega
      · rw [hrun]; exact h2
      · rw [hrun, ← harith]; exact h3
      · rw [hrun]; intro h; rw [h4 h]; omega

lemma check_internet_connection_eq (ping : Nat → Bool) (total thr : Int)
    (h1 : 1 ≤ total) (h2 : 0 ≤ thr) (h3 : thr ≤ total) :
    check_internet_connection ping total thr = pingLoop ping thr.toNat total.toNat 0 0 := by
  simp only [check_internet_connection]
  rw [if_neg (by omega : ¬total < 1), if_neg (by omega : ¬thr < 0),
    if_neg (by omega : ¬thr > total)]

/-- C5: For `sampleCount ≥ 1` and `1 ≤ failureThreshold ≤ sampleCount`, the
prober issues at most `sampleCount` probes; if it answers unreachable it does
so at the exact probe where the failure count first reaches the threshold
(so no remaining probe is issued); it answers reachable iff the failure count
over all samples stays below the threshold, in which case exactly
`sampleCount` probes were issued; and when all probes succeed the verdict is
reachable with exactly `sampleCount` probes issued.  (The frozen claim also
covered `failureThreshold = 0`, which behaves differently: see the
counterexample and C6.) -/
theorem c5_prober_short_circuit (ping : Nat → Bool) (total thr : Int)
    (h1 : 1 ≤ total) (h2 : 1 ≤ thr) (h3 : thr ≤ total) :
    (check_internet_connection ping total thr).probesIssued ≤ total.toNat ∧
    ((check_internet_connection ping total thr).verdict = false →
      failCount ping (check_internet_connection ping total thr).probesIssued = thr.toNat ∧
      ∀ k, k < (check_internet_connection ping total thr).probesIssued →
        failCount ping k < thr.toNat) ∧
    ((check_internet_connection ping total thr).verdict = true ↔
      failCount ping total.toNat < thr.toNat) ∧
    ((check_internet_connection ping total thr).verdict = true →
      (check_internet_connection ping total thr).probesIssued = total.toNat) ∧
    ((∀ i, i < total.toNat → ping i = true) →
      (check_internet_connection ping total thr).verdict = true ∧
      (check_internet_connection ping total thr).probesIssued = total.toNat) := by
  have hM : failCount ping 0 < thr.toNat := by
    show 0 < thr.toNat
    omega
  obtain ⟨h4, h5, h6, h7⟩ := pingLoop_spec ping thr.toNat total.toNat 0 hM
  rw [check_internet_connection_eq ping total thr h1 (by omega) h3]
  have hz : (0 : Nat) + total.toNat = total.toNat := by omega
  rw [hz] at h4 h6 h7
  refine ⟨h4, h5, h6, h7, ?_⟩
  intro hall
  have : failCount ping total.toNat < thr.toNat := by
    rw [failCount_eq_zero ping total.toNat hall]
    omega
  exact ⟨h6.mpr this, h7 (h6.mpr this)⟩

/-- C5 witness: on an all-failing oracle with 3 samples and threshold 2, the
failure count at the point of return equals the threshold. -/
theorem c5_witness :
    failCount (fun _ => false)
      (check_internet_connection (fun _ => false) 3 2).probesIssued = (2 : Int).toNat :=
  ((c5_prober_short_circuit (fun _ => false) 3 2 (by decide) (by decide)
    (by decide)).2.1 (by decide)).1

/-- C5 counterexample: with threshold 0 (allowed by the claim's range) and all
probes succeeding, the verdict is not reachable and not all samples are
issued, contradicting the claim's all-success conjunct. -/
theorem c5_counterexample :
    ¬ ((check_internet_connection (fun _ => true) 2 0).verdict = true ∧
       (check_internet_connection (fun _ => true) 2 0).probesIssued = 2) := by decide

/-- C6 (amended): with `failureThreshold = 0` the prober returns unreachable
after issuing exactly one probe — the threshold test at line 303 runs only
after each ping, so the first ping is always issued. -/
theorem c6_zero_threshold (ping : Nat → Bool) (total : Int) :
    check_internet_connection ping total 0 = ⟨false, 1⟩ := by
  simp only [check_internet_connection]
  rw [if_neg (by omega : ¬(0 : Int) < 0),
    if_neg (by split <;> omega : ¬(0 : Int) > if total < 1 then (1 : Int) else total)]
  obtain ⟨k, hk⟩ : ∃ k, (if total < 1 then (1 : Int) else total).toNat = k + 1 := by
    refine ⟨(if total < 1 then (1 : Int) else total).toNat - 1, ?_⟩
    split <;> omega
  rw [hk]
  simp [pingLoop]

/-- C6 counterexample: the claim said the verdict comes "without issuing any
probe", but one probe is issued. -/
theorem c6_counterexample :
    (check_internet_connection (fun _ => true) 7 0).probesIssued ≠ 0 := by decide

/-! ## Telegram sender and pending-message queue (src/netchange.py lines 42-115)

`send_telegram_message(message, skip_queue=False)` bails out returning `False`
when no token or no chat ids are configured; otherwise it loops over the chat
ids, skipping falsy (empty) ones, posting to each, and counts accepted
(HTTP 200) vs failed deliveries; if all attempted deliveries failed and
`skip_queue` is false it appends the message to `pending_messages` with a
fresh timestamp; it returns `sent_count > 0`.  Per-recipient acceptance is the
oracle `accepts message chat_id`, the wall clock is the parameter `now`, and
the global `pending_messages` list is passed and returned explicitly. -/

structure PendingMessage where
  message : String
  queued_at : Nat
  deriving DecidableEq

structure TelegramConfig where
  token : Bool
  chat_ids : List String
  deriving DecidableEq

/-- Outcome of one `send_telegram_message` call: the boolean return value, the
chat ids a delivery was attempted to, and the updated `pending_messages`. -/
structure SendResult where
  ret : Bool
  attempted : List String
  queue : List PendingMessage
  deriving DecidableEq

/-- `queue_telegram_message` (lines 92-100): append with a timestamp. -/
def queue_telegram_message (now : Nat) (q : List PendingMessage) (m : String) :
    List PendingMessage :=
  q ++ [⟨m, now⟩]

/-- `send_telegram_message` (lines 42-90). -/
def send_telegram_message (cfg : TelegramConfig) (accepts : String → String → Bool)
    (now : Nat) (q : List PendingMessage) (message : String) (skip_queue : Bool) :
    SendResult :=
  if cfg.token = false then ⟨false, [], q⟩
  else if cfg.chat_ids = [] then ⟨false, [], q⟩
  else
    let attempted := cfg.chat_ids.filter fun c => decide (c ≠ "")
    let sent_count := (attempted.filter fun c => accepts message c).length
    let failed_count := (attempted.filter fun c => !accepts message c).length
    let q' := if sent_count = 0 ∧ 0 < failed_count ∧ skip_queue = false then
        queue_telegram_message now q message
      else q
    ⟨decide (0 < sent_count), attempted, q'⟩

/-- Derived characterisation: whether a `send_telegram_message` call for
`message` returns `True` (at least one attempted recipient accepted). -/
def sendOk (cfg : TelegramConfig) (accepts : String → String → Bool) (message : String) :
    Bool :=
  if cfg.token = false then false
  else if cfg.chat_ids = [] then false
  else
    decide (0 < ((cfg.chat_ids.filter fun c => decide (c ≠ "")).filter
      fun c => accepts message c).length)

/-- Derived characterisation: whether a failed `send_telegram_message` call
for `message` (with `skip_queue=False`) re-queues the message — the channel is
configured, no attempted recipient accepted, and at least one attempted
delivery actually failed. -/
def requeuesOnFail (cfg : TelegramConfig) (accepts : String → String → Bool)
    (message : String) : Bool :=
  if cfg.token = false then false
  else if cfg.chat_ids = [] then false
  else
    decide (((cfg.chat_ids.filter fun c => decide (c ≠ "")).filter
        fun c => accepts message c).length = 0) &&
      decide (0 < ((cfg.chat_ids.filter fun c => decide (c ≠ "")).filter
        fun c => !accepts message c).length)

lemma send_ret_eq (cfg : TelegramConfig) (accepts : String → String → Bool)
    (now : Nat) (q : List PendingMessage) (message : String) (skip_queue : Bool) :
    (send_telegram_message cfg accepts now q message skip_queue).ret =
      sendOk cfg accepts message := by
  simp only [send_telegram_message, sendOk]
  split
  · rfl
  · split <;> rfl

lemma send_queue_eq (cfg : TelegramConfig) (accepts : String → String → Bool)
    (now : Nat) (q : List PendingMessage) (message : String) :
    (send_telegram_message cfg accepts now q message false).queue =
      if requeuesOnFail cfg accepts message then q ++ [⟨message, now⟩] else q := by
  simp only [send_telegram_message, requeuesOnFail, queue_telegram_message]
  split
  · rfl
  · split
    · rfl
    · split
      · rename_i hcond
        rw [if_pos]
        rw [Bool.and_eq_true, decide_eq_true_eq, decide_eq_true_eq]
        exact ⟨hcond.1, hcond.2.1⟩
      · rename_i hcond
        rw [if_neg]
        rw [Bool.and_eq_true, decide_eq_true_eq, decide_eq_true_eq]
        intro h
        exact hcond ⟨h.1, h.2, trivial⟩

lemma requeuesOnFail_eq_false_of_sendOk (cfg : TelegramConfig)
    (accepts : String → String → Bool) (message : String)
    (h : sendOk cfg accepts message = true) :
    requeuesOnFail cfg accepts message = false := by
  simp only [sendOk] at h
  simp only [requeuesOnFail]
  split
  · rfl
  · split
    · rfl
    · rename_i h1 h2
      rw [if_neg h1, if_neg h2, decide_eq_true_eq] at h
      simp only [Bool.and_eq_false_iff, decide_eq_false_iff_not]
      left
      omega

/-- `flush_pending_messages` (lines 102-115): iterate over a copy of the
queue; for each item call `send_telegram_message` (without `skip_queue`, so a
hard failure re-queues the item's message); on success remove the item from
the live queue, on failure stop.  `items` is the copy being iterated, `q` the
live queue, `att` accumulates the messages handed to `send`. -/
def flushLoop (cfg : TelegramConfig) (accepts : String → String → Bool) (now : Nat) :
    List PendingMessage → List PendingMessage → List String →
      List PendingMessage × List String
  | [], q, att => (q, att)
  | item :: rest, q, att =>
    let r := send_telegram_message cfg accepts now q item.message false
    if r.ret = true then
      flushLoop cfg accepts now rest (r.queue.erase item) (att ++ [item.message])
    else (r.queue, att ++ [item.message])

/-- `flush_pending_messages` (lines 102-115): early return on an empty queue,
else run the loop with the copy and the live queue both equal to the current
`pending_messages`.  Returns the final queue and the list of messages a send
was attempted for, in order. -/
def flush_pending_messages (cfg : TelegramConfig) (accepts : String → String → Bool)
    (now : Nat) (q : List PendingMessage) : List PendingMessage × List String :=
  if q = [] then (q, [])
  else flushLoop cfg accepts now q q []

lemma flushLoop_eq (cfg : TelegramConfig) (accepts : String → String → Bool) (now : Nat) :
    ∀ (items : List PendingMessage) (att : List String),
      flushLoop cfg accepts now items items att =
        ((items.dropWhile fun it => sendOk cfg accepts it.message) ++
          (match (items.dropWhile fun it => sendOk cfg accepts it.message).head? with
           | none => []
           | some x =>
             if requeuesOnFail cfg accepts x.message then [⟨x.message, now⟩] else []),
         att ++ ((items.takeWhile fun it => sendOk cfg accepts it.message).map
             fun it => it.message) ++
           (match (items.dropWhile fun it => sendOk cfg accepts it.message).head? with
            | none => []
            | some x => [x.message])) := by
  intro items
  induction items with
  | nil => intro att; simp [flushLoop]
  | cons item rest ih =>
    intro att
    by_cases hs : sendOk cfg accepts item.message = true
    · have hret := send_ret_eq cfg accepts now (item :: rest) item.message false
      have hq := send_queue_eq cfg accepts now (item :: rest) item.message
      rw [requeuesOnFail_eq_false_of_sendOk cfg accepts item.message hs, if_neg
        (by simp)] at hq
      simp only [flushLoop, hret, hs, if_pos, hq, List.erase_cons_head]
      rw [ih (att ++ [item.message])]
      simp [List.dropWhile_cons, List.takeWhile_cons, hs]
    · have hs' : sendOk cfg accepts item.message = false := by
        simpa using hs
      have hret := send_ret_eq cfg accepts now (item :: rest) item.message false
      have hq := send_queue_eq cfg accepts now (item :: rest) item.message
      have hretneq :
          ¬(send_telegram_message cfg accepts now (item :: rest) item.message false).ret
            = true := by
        rw [hret, hs']; simp
      simp only [flushLoop]
      rw [if_neg hretneq, hq]
      by_cases hreq : requeuesOnFail cfg accepts item.message = true
      · simp [hreq, hs', List.dropWhile_cons, List.takeWhile_cons]
      · simp [hreq, hs', List.dropWhile_cons, List.takeWhile_cons]

/-- C2 (amended): `flush` attempts sends in FIFO order through the longest
prefix of deliverable messages, removing each delivered message; it stops at
the first message whose send fails, leaving it and all later messages queued —
but when that failure was a per-recipient delivery failure on a configured
channel, the failed send itself re-queues the message, appending a fresh copy
at the tail.  The send attempts are exactly the delivered prefix plus the one
failed message. -/
theorem c2_flush_characterization (cfg : TelegramConfig)
    (accepts : String → String → Bool) (now : Nat) (q : List PendingMessage) :
    flush_pending_messages cfg accepts now q =
      ((q.dropWhile fun it => sendOk cfg accepts it.message) ++
        (match (q.dropWhile fun it => sendOk cfg accepts it.message).head? with
         | none => []
         | some x =>
           if requeuesOnFail cfg accepts x.message then [⟨x.message, now⟩] else []),
       ((q.takeWhile fun it => sendOk cfg accepts it.message).map
           fun it => it.message) ++
         (match (q.dropWhile fun it => sendOk cfg accepts it.message).head? with
          | none => []
          | some x => [x.message])) := by
  by_cases hq : q = []
  · subst hq; simp [flush_pending_messages]
  · rw [flush_pending_messages, if_neg hq, flushLoop_eq]
    simp

/-- C2 counterexample: with one configured recipient that accepts message "A"
but rejects "B", flushing the queue [A, B, C] leaves [B, C, B-requeued], not
exactly [B, C] as the claim states — the failed send of B re-queues B. -/
theorem c2_counterexample :
    (flush_pending_messages ⟨true, ["42"]⟩ (fun m _ => decide (m = "A")) 9
        [⟨"A", 1⟩, ⟨"B", 2⟩, ⟨"C", 3⟩]).1 ≠ [⟨"B", 2⟩, ⟨"C", 3⟩] := by decide

/-- C7 (amended): with the token configured and a non-empty recipient list,
`send` attempts delivery to every non-empty configured recipient — empty
entries are skipped by the falsy-chat-id guard at line 58 — and returns true
iff at least one attempted recipient accepted the message. -/
theorem c7_send_characterization (cfg : TelegramConfig)
    (accepts : String → String → Bool) (now : Nat) (q : List PendingMessage)
    (message : String) (skip_queue : Bool)
    (htok : cfg.token = true) (hids : cfg.chat_ids ≠ []) :
    (send_telegram_message cfg accepts now q message skip_queue).attempted =
      (cfg.chat_ids.filter fun c => decide (c ≠ "")) ∧
    (∀ c, c ∈ cfg.chat_ids → c ≠ "" →
      c ∈ (send_telegram_message cfg accepts now q message skip_queue).attempted) ∧
    ((send_telegram_message cfg accepts now q message skip_queue).ret = true ↔
      ∃ c ∈ (send_telegram_message cfg accepts now q message skip_queue).attempted,
        accepts message c = true) := by
  have hatt : (send_telegram_message cfg accepts now q message skip_queue).attempted =
      (cfg.chat_ids.filter fun c => decide (c ≠ "")) := by
    simp only [send_telegram_message]
    rw [if_neg (by simp [htok]), if_neg (by simp [hids])]
  refine ⟨hatt, ?_, ?_⟩
  · intro c hc hne
    rw [hatt]
    simp only [List.mem_filter, decide_eq_true_eq]
    exact ⟨hc, hne⟩
  · rw [send_ret_eq, hatt]
    simp only [sendOk]
    rw [if_neg (by simp [htok]), if_neg (by simp [hids])]
    rw [decide_eq_true_eq, List.length_pos_iff_exists_mem]
    constructor
    · rintro ⟨c, hc⟩
      rw [List.mem_filter] at hc
      exact ⟨c, hc.1, hc.2⟩
    · rintro ⟨c, hc, hacc⟩
      exact ⟨c, List.mem_filter.mpr ⟨hc, hacc⟩⟩

/-- C7 witness: with token configured and the single recipient "7", the
attempted list is exactly the non-empty-filtered recipient list. -/
theorem c7_witness :
    (send_telegram_message ⟨true, ["7"]⟩ (fun _ _ => true) 0 [] "hello" false).attempted =
      (["7"] : List String).filter fun c => decide (c ≠ "") :=
  (c7_send_characterization ⟨true, ["7"]⟩ (fun _ _ => true) 0 [] "hello" false rfl
    (by decide)).1

/-- C7 counterexample: an empty-string entry is a configured recipient the
claim says must be attempted, yet the code skips it: with recipient list
[""] no delivery is attempted at all. -/
theorem c7_counterexample :
    ¬ (∀ c ∈ (TelegramConfig.mk true [""]).chat_ids,
        c ∈ (send_telegram_message ⟨true, [""]⟩ (fun _ _ => true) 0 [] "m"
          false).attempted) := by decide

/-! ## Keyword binding of the prober call (src/netchange.py lines 267, 408)

`check_internet_connection` is declared with parameters `total_pings` and
`max_failed_pings` (line 267), but every call site in the program invokes it
as `check_internet_connection(consecutive_pings=10)` (lines 215, 408, 438,
486).  Python keyword binding rejects a keyword that names no parameter with
a `TypeError`.  We model the binding step of a call with keyword arguments
only. -/

inductive CheckCallResult where
  | typeError
  | bound (total_pings max_failed_pings : Int)
  deriving DecidableEq

def lookupKwarg (kwargs : List (String × Int)) (name : String) : Option Int :=
  (kwargs.find? fun kv => decide (kv.1 = name)).map Prod.snd

/-- Python keyword binding for
`def check_internet_connection(total_pings=TOTAL_PING, max_failed_pings=MAX_FAILED_PINGS)`:
a keyword naming no parameter raises `TypeError`, otherwise each parameter
takes the given keyword value or its default. -/
def bindCheckInternetConnectionKwargs (kwargs : List (String × Int)) : CheckCallResult :=
  if kwargs.all fun kv =>
      decide (kv.1 = "total_pings") || decide (kv.1 = "max_failed_pings") then
    CheckCallResult.bound ((lookupKwarg kwargs "total_pings").getD TOTAL_PING)
      ((lookupKwarg kwargs "max_failed_pings").getD MAX_FAILED_PINGS)
  else CheckCallResult.typeError

/-- C1: the Monitor Loop's probing step (line 408) calls
`check_internet_connection(consecutive_pings=10)`, which binds no parameter
and raises `TypeError`, so the cycle never probes at all — whereas the call
the claim (and the startup banner, lines 392-393) describes, with the
defaults, would bind `total_pings = 20` and `max_failed_pings = 10`. -/
theorem c1_monitor_probe_call :
    bindCheckInternetConnectionKwargs [("consecutive_pings", 10)] =
      CheckCallResult.typeError ∧
    bindCheckInternetConnectionKwargs [] =
      CheckCallResult.bound TOTAL_PING MAX_FAILED_PINGS ∧
    TOTAL_PING = 20 ∧ MAX_FAILED_PINGS = 10 := by decide

/-! ## Exception structure of main (src/netchange.py lines 402-520)

`main` wraps the entire `while True` monitoring loop in a single
`try/except`: `KeyboardInterrupt` leads to `sys.exit(0)` and any other
exception to `sys.exit(1)`.  There is no handler inside the loop body, so an
exception raised in an iteration leaves the loop and terminates the process.
The loop body (lines 404-513) is abstracted as `body`; `mainRun` runs up to
`n` iterations of the `try/while` structure. -/

structure MonState where
  connection_was_good : Bool
  last_ssid : Option String
  last_primary_retry : Int
  deriving DecidableEq

/-- Outcome of one iteration of main's loop body: a normal fall-through to
the next cycle, a `KeyboardInterrupt`, or any other exception. -/
inductive IterResult where
  | ok (s : MonState)
  | keyboardInterrupt
  | exc

/-- Observable fate of the process running main's loop. -/
inductive LoopOutcome where
  | running (s : MonState)
  | exitedClean
  | exitedError
  deriving DecidableEq

/-- The `try: while True: ... except KeyboardInterrupt: sys.exit(0) except
Exception: sys.exit(1)` structure of `main` (lines 402-520), run for `n`
iterations. -/
def mainRun (body : MonState → IterResult) : Nat → MonState → LoopOutcome
  | 0, s => LoopOutcome.running s
  | n + 1, s =>
    match body s with
    | IterResult.ok s' => mainRun body n s'
    | IterResult.keyboardInterrupt => LoopOutcome.exitedClean
    | IterResult.exc => LoopOutcome.exitedError

/-! ## Telegram command responder (src/netchange.py lines 117-264)

`handle_telegram_commands` loops forever; inside the loop a `try` block does
one `getUpdates` poll and processes its result, with `except` clauses that
catch a long-poll timeout (retry immediately), a connection error (sleep 5),
and any other exception (sleep 5); a non-200 response sleeps 30 on error
code 409 and 5 otherwise.  Each update's id is written into `update_id`
before any filtering; `/start` and `/help` dispatch a reply; `/wifistatus`
first dispatches a "checking" acknowledgment and then calls
`check_internet_connection(consecutive_pings=10)` (line 215), which raises
`TypeError` (see C1), aborting the rest of the batch into the generic
exception handler. -/

structure Update where
  update_id : Option Int
  text : String
  chat_id : Option Int
  chat_type : Option String
  deriving DecidableEq

/-- Python truthiness of the optional integer `chat_id` (`if not chat_id`). -/
def pyTruthyInt : Option Int → Bool
  | none => false
  | some n => decide (n ≠ 0)

/-- Python `str.strip()` (line 148): drop whitespace from both ends. -/
def pyStrip (s : String) : String :=
  String.mk (((s.data.dropWhile Char.isWhitespace).reverse.dropWhile
    Char.isWhitespace).reverse)

/-- Python `text.startswith("/")` (line 153). -/
def pyStartsWithSlash (s : String) : Bool :=
  match s.data with
  | [] => false
  | c :: _ => c == '/'

/-- Python `"@" in text` (line 162). -/
def pyContainsAt (s : String) : Bool :=
  s.data.contains '@'

/-- Python `text.split("@")[0]` (line 162): everything before the first @. -/
def pyBeforeAt (s : String) : String :=
  String.mk (s.data.takeWhile fun c => !(c == '@'))

/-- What the per-update branch of lines 146-235 does with one update:
nothing, dispatch one reply, or enter the `/wifistatus` handler (which sends
the acknowledgment and then raises, line 215). -/
inductive UpdAction where
  | skip
  | dispatch (entry : Int × String)
  | wifistatus (entry : Int × String)

/-- Classification of one update per lines 146-235: strip the text, ignore
non-commands and falsy chat ids, strip a group-mention suffix, and branch on
the command. -/
def classifyUpdate (u : Update) : UpdAction :=
  let text := pyStrip u.text
  if pyStartsWithSlash text = false then UpdAction.skip
  else if pyTruthyInt u.chat_id = false then UpdAction.skip
  else
    let cmd := if pyContainsAt text then pyBeforeAt text else text
    let chat := u.chat_id.getD 0
    if cmd = "/start" then UpdAction.dispatch (chat, "/start")
    else if cmd = "/help" then UpdAction.dispatch (chat, "/help")
    else if cmd = "/wifistatus" then UpdAction.wifistatus (chat, "checking")
    else UpdAction.skip

structure ProcessResult where
  cursor : Option Int
  dispatched : List (Int × String)
  raised : Bool
  deriving DecidableEq

/-- The `for update in updates` loop of lines 145-235: `update_id` is
overwritten with each update's id before any filtering; dispatched replies
accumulate in order; the `/wifistatus` branch raises after its
acknowledgment, aborting the batch. -/
def processUpdates : Option Int → List (Int × String) → List Update → ProcessResult
  | cursor, acc, [] => ⟨cursor, acc, false⟩
  | _, acc, u :: rest =>
    match classifyUpdate u with
    | UpdAction.skip => processUpdates u.update_id acc rest
    | UpdAction.dispatch e => processUpdates u.update_id (acc ++ [e]) rest
    | UpdAction.wifistatus e => ⟨u.update_id, acc ++ [e], true⟩

structure RespState where
  update_id : Option Int
  deriving DecidableEq

/-- Result of one `getUpdates` poll as seen by the iteration: a 200 response
with its updates, a non-200 response with its parsed `error_code`, or one of
the three exception classes of lines 252-259. -/
inductive PollOutcome where
  | httpOk (updates : List Update)
  | httpErr (error_code : Option Int)
  | timeoutExc
  | connErr
  | otherExc

structure RespIterOut where
  st : RespState
  dispatched : List (Int × String)
  delay : Nat
  deriving DecidableEq

/-- One iteration of the `while True` poll loop of lines 133-259: process a
200 response (an exception while processing lands in the generic handler and
sleeps 5), sleep 30 on a 409 conflict, 5 on other API errors, 0 on the benign
long-poll timeout, 5 on connection errors and unclassified exceptions.  Every
case falls through to the next iteration. -/
def handle_telegram_iteration (st : RespState) (out : PollOutcome) : RespIterOut :=
  match out with
  | PollOutcome.httpOk updates =>
    let r := processUpdates st.update_id [] updates
    ⟨⟨r.cursor⟩, r.dispatched, if r.raised = true then 5 else 0⟩
  | PollOutcome.httpErr code => ⟨st, [], if code = some 409 then 30 else 5⟩
  | PollOutcome.timeoutExc => ⟨st, [], 0⟩
  | PollOutcome.connErr => ⟨st, [], 5⟩
  | PollOutcome.otherExc => ⟨st, [], 5⟩

/-- The id the cursor holds after the batch: each update overwrites it. -/
def lastIdFrom : Option Int → List Update → Option Int
  | c, [] => c
  | _, u :: rest => lastIdFrom u.update_id rest

lemma processUpdates_indep (us : List Update) (c₁ c₂ : Option Int)
    (acc : List (Int × String)) :
    (processUpdates c₁ acc us).dispatched = (processUpdates c₂ acc us).dispatched ∧
    (processUpdates c₁ acc us).raised = (processUpdates c₂ acc us).raised := by
  cases us with
  | nil => exact ⟨rfl, rfl⟩
  | cons u rest => exact ⟨rfl, rfl⟩

lemma processUpdates_cursor (us : List Update) :
    ∀ (c : Option Int) (acc : List (Int × String)),
      (processUpdates c acc us).raised = false →
      (processUpdates c acc us).cursor = lastIdFrom c us := by
  induction us with
  | nil => intro c acc _; rfl
  | cons u rest ih =>
    intro c acc h
    cases hcl : classifyUpdate u <;>
      simp only [processUpdates, lastIdFrom, hcl] at h ⊢
    · exact ih _ _ h
    · exact ih _ _ h
    · cases h

/-- C8 (amended): the Command Responder has no client-side deduplication:
`update_id` is overwritten with each incoming update's id — after a batch
that completes without raising, the cursor equals the last update's id, even
if that is lower than the previous cursor — and which commands a batch
dispatches never depends on the stored cursor, so reprocessing is prevented
only by the server honoring the `offset` parameter. -/
theorem c8_cursor_follows_server (st : RespState) (updates : List Update)
    (h : (processUpdates st.update_id [] updates).raised = false) :
    (handle_telegram_iteration st (PollOutcome.httpOk updates)).st.update_id =
      lastIdFrom st.update_id updates ∧
    ∀ st' : RespState,
      (handle_telegram_iteration st (PollOutcome.httpOk updates)).dispatched =
        (handle_telegram_iteration st' (PollOutcome.httpOk updates)).dispatched := by
  constructor
  · exact processUpdates_cursor updates st.update_id [] h
  · intro st'
    exact (processUpdates_indep updates st.update_id st'.update_id []).1

/-- C8 witness: a poll returning the single update id 5 while the cursor is 7
moves the cursor to 5. -/
theorem c8_witness :
    (handle_telegram_iteration ⟨some 7⟩
        (PollOutcome.httpOk [⟨some 5, "/help", some 1, some "group"⟩])).st.update_id =
      lastIdFrom (some 7) [⟨some 5, "/help", some 1, some "group"⟩] :=
  (c8_cursor_follows_server ⟨some 7⟩ [⟨some 5, "/help", some 1, some "group"⟩]
    (by decide)).1

/-- C8 counterexample: with the cursor already advanced to 7, a poll response
replaying update id 5 with a `/help` command dispatches one command (not
zero) and resets the cursor backwards to 5. -/
theorem c8_counterexample :
    (handle_telegram_iteration ⟨some 7⟩
        (PollOutcome.httpOk [⟨some 5, "/help", some 1, some "private"⟩])).dispatched =
      [(1, "/help")] ∧
    (handle_telegram_iteration ⟨some 7⟩
        (PollOutcome.httpOk [⟨some 5, "/help", some 1, some "private"⟩])).st.update_id =
      some 5 := by decide

/-- C9: per poll iteration, a 409 duplicate-listener conflict backs off 30
seconds, any other API error or transport error backs off 5 seconds, and the
benign long-poll timeout retries immediately with no backoff. -/
theorem c9_poll_backoff (st : RespState) (c : Option Int) :
    (handle_telegram_iteration st (PollOutcome.httpErr (some 409))).delay = 30 ∧
    (handle_telegram_iteration st (PollOutcome.httpErr c)).delay =
      (if c = some 409 then 30 else 5) ∧
    (handle_telegram_iteration st PollOutcome.connErr).delay = 5 ∧
    (handle_telegram_iteration st PollOutcome.timeoutExc).delay = 0 ∧
    (handle_telegram_iteration st PollOutcome.otherExc).delay = 5 := by
  refine ⟨?_, rfl, rfl, rfl, rfl⟩
  simp [handle_telegram_iteration]

/-- C3 counterexample: the first statement of every monitor iteration raises
`TypeError` (the bad keyword, line 408), and under main's exception
structure a raising iteration terminates the process with exit code 1
instead of continuing to the next cycle. -/
theorem c3_counterexample :
    bindCheckInternetConnectionKwargs [("consecutive_pings", 10)] =
      CheckCallResult.typeError ∧
    mainRun (fun _ => IterResult.exc) 1 ⟨true, none, 0⟩ = LoopOutcome.exitedError :=
  ⟨by decide, rfl⟩

/-- C3 (amended): an unexpected exception in a Command Responder poll
iteration is caught inside the loop and the loop continues after a 5-second
backoff, but an unexpected exception in a Monitor Loop iteration escapes the
loop and terminates the process with exit code 1. -/
theorem c3_exception_boundaries (body : MonState → IterResult) (st : MonState)
    (n : Nat) (rst : RespState) (h : body st = IterResult.exc) :
    mainRun body (n + 1) st = LoopOutcome.exitedError ∧
    (handle_telegram_iteration rst PollOutcome.otherExc).st = rst ∧
    (handle_telegram_iteration rst PollOutcome.otherExc).delay = 5 := by
  refine ⟨?_, rfl, rfl⟩
  simp [mainRun, h]

/-- C3 witness: a body raising on its first iteration exits with code 1. -/
theorem c3_witness :
    mainRun (fun _ => IterResult.exc) 3 ⟨true, none, 0⟩ = LoopOutcome.exitedError :=
  (c3_exception_boundaries (fun _ => IterResult.exc) ⟨true, none, 0⟩ 2 ⟨none⟩ rfl).1

/-! ## Control flow of one monitor-loop iteration (src/netchange.py lines 404-513)

One pass of main's `while True` body, with the external effects as oracles:
`probe1` for the verdict of the cycle's connectivity check at line 408,
`wifi0` for `get_current_wifi()` at line 409, `join s` for
`connect_to_wifi(s)`, `wifiAfter s` for the `get_current_wifi()` re-read
after joining `s`, `probeAfter s` for the re-probe verdict while joined to
`s`, and `current_time` for `time.time()`.  Notifications and queue flushes
are recorded as an event list; their send/queue semantics are verified
separately on `send_telegram_message` / `flush_pending_messages`. -/

/-- Python truthiness of the optional SSID string (`if not current_ssid`). -/
def pyTruthy : Option String → Bool
  | none => false
  | some s => decide (s ≠ "")

/-- Lines 509-510: `last_ssid` is updated only when `current_ssid` is truthy. -/
def updLast (cs last : Option String) : Option String :=
  if pyTruthy cs = true then cs else last

structure MonOracle where
  current_time : Int
  probe1 : Bool
  wifi0 : Option String
  join : String → Bool
  wifiAfter : String → Option String
  probeAfter : String → Bool

/-- The notifications and flushes one iteration can perform. -/
inductive MonEvent where
  | sentRestored
  | flushed
  | sentLost
  | sentRetryIntent
  | sentSwitchSuccess
  | sentPrimaryNoInternet
  | sentWalkSuccess (ssid : String)
  deriving DecidableEq

/-- Lines 426-454: when connected on the fallback network and the retry
interval has elapsed, notify intent, try to join the primary network, re-read
the SSID, re-probe, and notify the outcome; `last_primary_retry` is set to
the current time on every path inside the branch (line 454).  Returns the
final `current_ssid`, the new `last_primary_retry`, and the events. -/
def retry_primary_step (st : MonState) (o : MonOracle) :
    Option String × Int × List MonEvent :=
  if o.wifi0 = some FALLBACK_WIFI ∧
      RETRY_PRIMARY_INTERVAL ≤ o.current_time - st.last_primary_retry then
    if o.join PRIMARY_WIFI = true then
      if o.wifiAfter PRIMARY_WIFI = some PRIMARY_WIFI then
        if o.probeAfter PRIMARY_WIFI = true then
          (o.wifiAfter PRIMARY_WIFI, o.current_time,
            [MonEvent.sentRetryIntent, MonEvent.sentSwitchSuccess])
        else
          (o.wifiAfter PRIMARY_WIFI, o.current_time,
            [MonEvent.sentRetryIntent, MonEvent.sentPrimaryNoInternet])
      else (o.wifiAfter PRIMARY_WIFI, o.current_time, [MonEvent.sentRetryIntent])
    else (o.wifi0, o.current_time, [MonEvent.sentRetryIntent])
  else (o.wifi0, st.last_primary_retry, [])

/-- Lines 466-496: the priority walk.  For each candidate not currently
joined, attempt the join; on success re-read the SSID and re-probe; on a
reachable re-probe send the success notification (bypassing the queue), flush
the pending queue, remember whether the candidate was the primary network,
and mark `connected` so the remaining candidates break out.  Returns the
final `current_ssid`, the `connected` flag, whether `last_primary_retry` must
be refreshed, and the events. -/
def wifi_walk (o : MonOracle) :
    List String → Option String → Bool → Option String × Bool × Bool × List MonEvent
  | [], cs, connected => (cs, connected, false, [])
  | ssid :: rest, cs, connected =>
    if connected = true then (cs, connected, false, [])
    else if pyTruthy cs = false ∨ cs ≠ some ssid then
      if o.join ssid = true then
        if o.wifiAfter ssid = some ssid then
          if o.probeAfter ssid = true then
            let w := wifi_walk o rest (o.wifiAfter ssid) true
            (w.1, w.2.1, w.2.2.1 || decide (ssid = PRIMARY_WIFI),
              MonEvent.sentWalkSuccess ssid :: MonEvent.flushed :: w.2.2.2)
          else wifi_walk o rest (o.wifiAfter ssid) connected
        else wifi_walk o rest (o.wifiAfter ssid) connected
      else wifi_walk o rest cs connected
    else wifi_walk o rest cs connected

/-- Lines 414-454: the reachable branch.  If the connection was previously
bad, send the "restored" notification (bypassing the queue), flush the
pending queue, and set `connection_was_good = True`; then possibly retry the
primary network. -/
def reachable_branch (st : MonState) (o : MonOracle) : MonState × List MonEvent :=
  let ev1 := if st.connection_was_good = false then
      [MonEvent.sentRestored, MonEvent.flushed] else []
  let cwg' := if st.connection_was_good = false then true else st.connection_was_good
  let r := retry_primary_step st o
  (⟨cwg', updLast r.1 st.last_ssid, r.2.1⟩, ev1 ++ r.2.2)

/-- Lines 456-510: the unreachable branch.  If the connection was previously
good, send the "lost" notification and set `connection_was_good = False`;
then run the priority walk. -/
def unreachable_branch (st : MonState) (o : MonOracle) : MonState × List MonEvent :=
  let ev1 := if st.connection_was_good = true then [MonEvent.sentLost] else []
  let cwg' := if st.connection_was_good = true then false else st.connection_was_good
  let w := wifi_walk o [PRIMARY_WIFI, SECONDARY_WIFI, FALLBACK_WIFI] o.wifi0 false
  (⟨cwg', updLast w.1 st.last_ssid,
    if w.2.2.1 = true then o.current_time else st.last_primary_retry⟩,
   ev1 ++ w.2.2.2)

/-- One iteration of the monitoring loop body (lines 404-513), branching on
the cycle's probe verdict. -/
def monitor_iteration (st : MonState) (o : MonOracle) : MonState × List MonEvent :=
  if o.probe1 = true then reachable_branch st o else unreachable_branch st o

lemma reachable_events (st : MonState) (o : MonOracle) :
    (reachable_branch st o).2 =
      (if st.connection_was_good = false then
        [MonEvent.sentRestored, MonEvent.flushed] else []) ++
        (retry_primary_step st o).2.2 := rfl

lemma unreachable_events (st : MonState) (o : MonOracle) :
    (unreachable_branch st o).2 =
      (if st.connection_was_good = true then [MonEvent.sentLost] else []) ++
        (wifi_walk o [PRIMARY_WIFI, SECONDARY_WIFI, FALLBACK_WIFI] o.wifi0
          false).2.2.2 := rfl

/-- The state's connectivity flag after an iteration always equals that
iteration's probe verdict. -/
lemma monitor_cwg (st : MonState) (o : MonOracle) :
    (monitor_iteration st o).1.connection_was_good = o.probe1 := by
  unfold monitor_iteration reachable_branch unreachable_branch
  cases hp : o.probe1 <;> cases hc : st.connection_was_good <;> simp [hp, hc]

lemma retry_no_restored (st : MonState) (o : MonOracle) :
    MonEvent.sentRestored ∉ (retry_primary_step st o).2.2 := by
  unfold retry_primary_step
  repeat' split
  all_goals simp

lemma walk_events_shape (o : MonOracle) :
    ∀ (cands : List String) (cs : Option String) (conn : Bool) (e : MonEvent),
      e ∈ (wifi_walk o cands cs conn).2.2.2 →
      e = MonEvent.flushed ∨ ∃ s, e = MonEvent.sentWalkSuccess s := by
  intro cands
  induction cands with
  | nil => intro cs conn e h; simp [wifi_walk] at h
  | cons ssid rest ih =>
    intro cs conn e h
    simp only [wifi_walk] at h
    split at h
    · simp at h
    · split at h
      · split at h
        · split at h
          · split at h
            · rcases List.mem_cons.mp h with h1 | h1
              · exact Or.inr ⟨ssid, h1⟩
              · rcases List.mem_cons.mp h1 with h2 | h2
                · exact Or.inl h2
                · exact ih _ _ _ h2
            · exact ih _ _ _ h
          · exact ih _ _ _ h
        · exact ih _ _ _ h
      · exact ih _ _ _ h

lemma walk_flushed_of_success (o : MonOracle) :
    ∀ (cands : List String) (cs : Option String) (conn : Bool) (s : String),
      MonEvent.sentWalkSuccess s ∈ (wifi_walk o cands cs conn).2.2.2 →
      MonEvent.flushed ∈ (wifi_walk o cands cs conn).2.2.2 := by
  intro cands
  induction cands with
  | nil => intro cs conn s h; simp [wifi_walk] at h
  | cons ssid rest ih =>
    intro cs conn s h
    simp only [wifi_walk] at h ⊢
    split at h
    · simp at h
    · split at h
      · split at h
        · split at h
          · split at h
            · rename_i h1 h2 h3 h4 h5
              rw [if_neg h1, if_pos h2, if_pos h3, if_pos h4, if_pos h5]
              exact List.mem_cons_of_mem _ (List.mem_cons_self _ _)
            · rename_i h1 h2 h3 h4 h5
              rw [if_neg h1, if_pos h2, if_pos h3, if_pos h4, if_neg h5]
              exact ih _ _ s h
          · rename_i h1 h2 h3 h4
            rw [if_neg h1, if_pos h2, if_pos h3, if_neg h4]
            exact ih _ _ s h
        · rename_i h1 h2 h3
          rw [if_neg h1, if_pos h2, if_neg h3]
          exact ih _ _ s h
      · rename_i h1 h2
        rw [if_neg h1, if_neg h2]
        exact ih _ _ s h

/-- The "restored" notification is emitted exactly in a reachable cycle that
follows a bad state. -/
lemma restored_mem_iff (st : MonState) (o : MonOracle) :
    MonEvent.sentRestored ∈ (monitor_iteration st o).2 ↔
      (o.probe1 = true ∧ st.connection_was_good = false) := by
  cases hp : o.probe1
  · have he : (monitor_iteration st o).2 = (unreachable_branch st o).2 := by
      unfold monitor_iteration
      rw [if_neg (by simp [hp])]
    rw [he, unreachable_events, List.mem_append]
    constructor
    · rintro (h1 | h2)
      · exfalso
        cases hc : st.connection_was_good <;> rw [hc] at h1 <;> simp at h1
      · exfalso
        rcases walk_events_shape o _ _ _ _ h2 with h | ⟨s, h⟩ <;> simp at h
    · rintro ⟨h1, _⟩
      simp at h1
  · have he : (monitor_iteration st o).2 = (reachable_branch st o).2 := by
      unfold monitor_iteration
      rw [if_pos hp]
    rw [he, reachable_events, List.mem_append]
    constructor
    · rintro (h1 | h2)
      · cases hc : st.connection_was_good <;> rw [hc] at h1 <;> simp at h1
        exact ⟨rfl, rfl⟩
      · exact absurd h2 (retry_no_restored st o)
    · rintro ⟨_, h2⟩
      rw [h2]
      simp

/-- A reachable cycle following a bad state flushes the pending queue. -/
lemma flushed_mem (st : MonState) (o : MonOracle) (hp : o.probe1 = true)
    (hc : st.connection_was_good = false) :
    MonEvent.flushed ∈ (monitor_iteration st o).2 := by
  unfold monitor_iteration
  rw [if_pos hp, reachable_events, hc]
  simp

/-- C4: `connection_was_good` drops from true to false only in a cycle whose
probe verdict is unreachable and rises from false to true only in a cycle
whose probe verdict is reachable; the false-to-true transition happens
exactly when the "restored" notification is emitted and the pending queue is
flushed. -/
theorem c4_connection_transitions (st : MonState) (o : MonOracle) :
    (st.connection_was_good = true →
      (monitor_iteration st o).1.connection_was_good = false → o.probe1 = false) ∧
    (st.connection_was_good = false →
      (monitor_iteration st o).1.connection_was_good = true → o.probe1 = true) ∧
    ((st.connection_was_good = false ∧
        (monitor_iteration st o).1.connection_was_good = true) ↔
      (MonEvent.sentRestored ∈ (monitor_iteration st o).2 ∧
        MonEvent.flushed ∈ (monitor_iteration st o).2)) := by
  have hcwg := monitor_cwg st o
  refine ⟨?_, ?_, ?_, ?_⟩
  · intro _ h2; rw [hcwg] at h2; exact h2
  · intro _ h2; rw [hcwg] at h2; exact h2
  · rintro ⟨h1, h2⟩
    rw [hcwg] at h2
    exact ⟨(restored_mem_iff st o).mpr ⟨h2, h1⟩, flushed_mem st o h2 h1⟩
  · rintro ⟨h1, _⟩
    rcases (restored_mem_iff st o).mp h1 with ⟨hp, hc⟩
    exact ⟨hc, by rw [hcwg]; exact hp⟩

/-- A reachable-cycle oracle whose joins all fail (used as a witness input). -/
def oReachDemo : MonOracle :=
  ⟨0, true, none, fun _ => false, fun _ => none, fun _ => false⟩

/-- C4 witness: from a bad state, a reachable cycle emits "restored". -/
theorem c4_witness :
    MonEvent.sentRestored ∈ (monitor_iteration ⟨false, none, 0⟩ oReachDemo).2 :=
  ((c4_connection_transitions ⟨false, none, 0⟩ oReachDemo).2.2.mp
    ⟨rfl, by decide⟩).1

/-- C10: in an unreachable cycle whose priority walk found a working network
(success notification sent and queue flushed), `connection_was_good` is still
false at the end of the iteration, so the next reachable cycle additionally
emits "restored", flushes the queue a second time, and only then sets
`connection_was_good` to true. -/
theorem c10_walk_success_keeps_false (st : MonState) (o o₂ : MonOracle) (s : String)
    (h1 : o.probe1 = false)
    (h2 : MonEvent.sentWalkSuccess s ∈ (monitor_iteration st o).2)
    (h3 : o₂.probe1 = true) :
    MonEvent.flushed ∈ (monitor_iteration st o).2 ∧
    (monitor_iteration st o).1.connection_was_good = false ∧
    MonEvent.sentRestored ∈ (monitor_iteration (monitor_iteration st o).1 o₂).2 ∧
    MonEvent.flushed ∈ (monitor_iteration (monitor_iteration st o).1 o₂).2 ∧
    (monitor_iteration (monitor_iteration st o).1 o₂).1.connection_was_good
      = true := by
  have hcwg1 : (monitor_iteration st o).1.connection_was_good = false := by
    rw [monitor_cwg]; exact h1
  have he : (monitor_iteration st o).2 = (unreachable_branch st o).2 := by
    unfold monitor_iteration
    rw [if_neg (by simp [h1])]
  refine ⟨?_, hcwg1, ?_, ?_, ?_⟩
  · rw [he, unreachable_events, List.mem_append] at h2 ⊢
    rcases h2 with h2 | h2
    · exfalso
      cases hc : st.connection_was_good <;> rw [hc] at h2 <;> simp at h2
    · exact Or.inr (walk_flushed_of_success o _ _ _ s h2)
  · exact (restored_mem_iff _ o₂).mpr ⟨h3, hcwg1⟩
  · exact flushed_mem _ o₂ h3 hcwg1
  · rw [monitor_cwg]; exact h3

/-- An unreachable-cycle oracle whose first join candidate works (used as a
witness input). -/
def oWalkDemo : MonOracle :=
  ⟨50, false, none, fun _ => true, fun s => some s, fun _ => true⟩

/-- C10 witness: after a successful walk the next reachable cycle emits
"restored". -/
theorem c10_witness :
    MonEvent.sentRestored ∈
      (monitor_iteration (monitor_iteration ⟨true, none, 0⟩ oWalkDemo).1
        oReachDemo).2 :=
  (c10_walk_success_keeps_false ⟨true, none, 0⟩ oWalkDemo oReachDemo PRIMARY_WIFI
    rfl (by decide) rfl).2.2.1

end Netchange
